import Mathlib

/-!
Shallow embedding of src/syft_hub/core/decorators.py.

The file models the four decorators of the module — ensure_syftbox_running,
require_account, make_sync_wrapper and smart_async_wrapper — over an explicit
model of Python service instances, attribute access, exceptions and
coroutines, and proves the specified properties about them.

Modelling conventions:
- A Python value that can appear in the account-configured attribute is a
  PyValue; Python truthiness is PyValue.truthy.
- A service instance is a record of the attributes the fragment reads:
  the class name (for error messages), the syft_client attribute (absent,
  present with a wrong type, or a valid client carrying the result of its
  my_datasite.exists() readiness predicate), and the optional
  _account_configured attribute.
- An operation (a wrapped function) is a record of its dunder name, dunder
  doc, whether asyncio.iscoroutinefunction holds of it, and its call
  semantics: a function from the full positional-argument list to an
  Except outcome (error raised, or value returned).
- Wrappers that may or may not invoke the wrapped operation return the
  outcome paired with the number of times the wrapped operation was
  invoked, so that "never invoked" is a provable statement.
-/

/-- Python exceptions raised by this fragment, plus an arbitrary error kind
for errors raised by wrapped operations themselves. -/
inductive Exc where
  | typeError (msg : String)
  | attributeError (msg : String)
  | syftBoxNotRunningError (msg : String)
  | authenticationError (msg : String)
  | userError (msg : String)
  deriving DecidableEq

/-- Python values that may be stored in the account-configured attribute;
enough constructors to exhibit every truthiness class the claims mention. -/
inductive PyValue where
  | vNone
  | vBool (b : Bool)
  | vInt (n : Int)
  | vStr (s : String)
  deriving DecidableEq

/-- Python truthiness of a PyValue: bool(v). -/
def PyValue.truthy : PyValue → Bool
  | .vNone => false
  | .vBool b => b
  | .vInt n => decide (n ≠ 0)
  | .vStr s => decide (s ≠ "")

/-- The syft_client attribute of a service instance: absent, present but not
an instance of the external SyftClient class, or a valid client whose
my_datasite.exists() readiness predicate returns the recorded boolean. -/
inductive SyftClientAttr where
  | missing
  | wrongType
  | client (my_datasite_exists : Bool)
  deriving DecidableEq

/-- A Python service instance, restricted to the attributes this fragment
reads: its class name, its syft_client attribute and its optional
_account_configured attribute (none models an absent attribute). -/
structure ServiceInstance where
  className : String
  syft_client : SyftClientAttr
  account_configured : Option PyValue
  deriving DecidableEq

/-- A wrapped Python function: dunder name, dunder doc (none when the
function has no docstring), whether asyncio.iscoroutinefunction holds, and
its call semantics on the full positional-argument list. -/
structure Operation where
  name : String
  doc : Option String
  isAsync : Bool
  run : List ServiceInstance → Except Exc PyValue

/-- An unstarted coroutine: the operation applied to its arguments but not
yet driven by any scheduler. -/
structure Coroutine where
  op : Operation
  args : List ServiceInstance

/-- Driving a coroutine to completion yields the outcome of the operation on
the recorded arguments. -/
def Coroutine.awaited (c : Coroutine) : Except Exc PyValue :=
  c.op.run c.args

/-- Modelled from the spec: run_async_in_thread lives in
syft_hub/utils/async_utils.py, which is not part of the provided sources.
The spec describes it as a thread-hosted scheduler runner: given an
asynchronous operation, it runs it to completion on a dedicated thread and
returns its result or propagates its failure. -/
def run_async_in_thread (c : Coroutine) : Except Exc PyValue :=
  c.awaited

/-- getattr(self, \x27_account_configured\x27, False): the attribute value
when present, the default False otherwise. -/
def getattr_account_configured (self : ServiceInstance) : PyValue :=
  self.account_configured.getD (PyValue.vBool false)

/-- Message of the AuthenticationError raised by require_account (the two
adjacent string literals of the source, concatenated). -/
def accountSetupMessage : String :=
  "Account setup required before using services. Please run: await client.setup_accounting(email, password)"

/-- The async_wrapper of require_account: when awaited it checks the
account-configured flag, raises AuthenticationError if falsy, and otherwise
awaits func(self, ...args). The second component counts invocations of the
wrapped operation (0 means its coroutine was never even constructed). -/
def require_account_async_wrapper (op : Operation) (self : ServiceInstance)
    (args : List ServiceInstance) : Except Exc PyValue × Nat :=
  if !(getattr_account_configured self).truthy then
    (Except.error (Exc.authenticationError accountSetupMessage), 0)
  else
    (op.run (self :: args), 1)

/-- The sync_wrapper of require_account: checks the account-configured flag,
raises AuthenticationError if falsy, otherwise calls func(self, ...args). -/
def require_account_sync_wrapper (op : Operation) (self : ServiceInstance)
    (args : List ServiceInstance) : Except Exc PyValue × Nat :=
  if !(getattr_account_configured self).truthy then
    (Except.error (Exc.authenticationError accountSetupMessage), 0)
  else
    (op.run (self :: args), 1)

/-- The value returned by the require_account decorator: either the async
wrapper (an async def, so the decorated result is itself a coroutine
function) or the sync wrapper (a plain def). -/
inductive WrappedFun where
  | asyncFn (call : ServiceInstance → List ServiceInstance → Except Exc PyValue × Nat)
  | syncFn (call : ServiceInstance → List ServiceInstance → Except Exc PyValue × Nat)

/-- Whether the decorated result is itself a coroutine function. -/
def WrappedFun.isAsync : WrappedFun → Bool
  | .asyncFn _ => true
  | .syncFn _ => false

/-- Calling the decorated result (awaiting it, in the async case). -/
def WrappedFun.call : WrappedFun → ServiceInstance → List ServiceInstance →
    Except Exc PyValue × Nat
  | .asyncFn f, self, args => f self args
  | .syncFn f, self, args => f self args

/-- require_account: returns async_wrapper when asyncio.iscoroutinefunction
holds of the wrapped function, sync_wrapper otherwise. -/
def require_account (op : Operation) : WrappedFun :=
  if op.isAsync then
    WrappedFun.asyncFn (require_account_async_wrapper op)
  else
    WrappedFun.syncFn (require_account_sync_wrapper op)

/-- Message of the TypeError raised by the ensure_syftbox_running wrapper
when called with no positional arguments. -/
def mustBeMethodMessage (funcName : String) : String :=
  "\x27" ++ funcName ++ "\x27 must be called as a method (i.e., requires \x27self\x27)."

/-- Message of the AttributeError raised by the ensure_syftbox_running
wrapper when the instance lacks a valid syft_client attribute. -/
def lacksClientMessage (className : String) : String :=
  "Service instance " ++ className ++ " lacks a valid \x27syft_client\x27 attribute."

/-- Message of the SyftBoxNotRunningError raised by the
ensure_syftbox_running wrapper when the readiness predicate is false. -/
def notRunningMessage : String :=
  "Local SyftBox is not running. Cannot send RPC request."

/-- The async wrapper produced by ensure_syftbox_running: checks that some
positional argument was given, that the first one carries a valid
syft_client attribute, and that the readiness predicate
syft_client.my_datasite.exists() holds, then awaits func(*args). The second
component counts invocations of the wrapped operation. -/
def ensure_syftbox_running (op : Operation) (args : List ServiceInstance) :
    Except Exc PyValue × Nat :=
  match args with
  | [] =>
    (Except.error (Exc.typeError (mustBeMethodMessage op.name)), 0)
  | service_instance :: _ =>
    match service_instance.syft_client with
    | SyftClientAttr.missing =>
      (Except.error (Exc.attributeError (lacksClientMessage service_instance.className)), 0)
    | SyftClientAttr.wrongType =>
      (Except.error (Exc.attributeError (lacksClientMessage service_instance.className)), 0)
    | SyftClientAttr.client ready =>
      if !ready then
        (Except.error (Exc.syftBoxNotRunningError notRunningMessage), 0)
      else
        (op.run args, 1)

/-- The pattern removed by smart_async_wrapper from the wrapped name. -/
def asyncPat : List Char := ['_', 'a', 's', 'y', 'n', 'c']

/-- Python str.replace with pattern "_async" and empty replacement on a
character list: scan left to right, removing each occurrence of the pattern
and continuing after it. -/
def removeAsyncOcc : List Char → List Char
  | '_' :: 'a' :: 's' :: 'y' :: 'n' :: 'c' :: rest => removeAsyncOcc rest
  | c :: rest => c :: removeAsyncOcc rest
  | [] => []

/-- name.replace(\x27_async\x27, \x27\x27) on strings. -/
def pyReplaceAsyncEmpty (s : String) : String :=
  String.mk (removeAsyncOcc s.data)

/-- The documentation string stored by make_sync_wrapper: the f-string
"Synchronous wrapper for {name}.\n\n{doc or \x27\x27}". -/
def make_sync_wrapper_doc (op : Operation) : String :=
  "Synchronous wrapper for " ++ op.name ++ ".\n\n" ++ op.doc.getD ""

/-- make_sync_wrapper: the synchronous wrapper calls
run_async_in_thread(async_method(self, *args)); its dunder name is the
original name with "_sync" appended and its dunder doc embeds the original
doc. The wrapper is a plain def, hence isAsync is false. -/
def make_sync_wrapper (op : Operation) : Operation where
  name := op.name ++ "_sync"
  doc := some (make_sync_wrapper_doc op)
  isAsync := false
  run := fun args => run_async_in_thread (Coroutine.mk op args)

/-- Result of calling the smart wrapper: either a resolved outcome returned
directly (value returned or error raised), or an unstarted coroutine handed
back to the caller. -/
inductive CallResult where
  | value (r : Except Exc PyValue)
  | coroutine (c : Coroutine)

/-- The documentation string stored by smart_async_wrapper: the triple
quoted f-string of the source, with its literal newlines and indentation. -/
def smart_async_wrapper_doc (op : Operation) : String :=
  "Smart wrapper for " ++ op.name ++ " that adapts to execution context.\n    \n    In async contexts: returns awaitable coroutine\n    In sync contexts: returns the actual result\n    \n    " ++ op.doc.getD "" ++ "\n    "

/-- The dunder name stored by smart_async_wrapper:
async_method.__name__.replace(\x27_async\x27, \x27\x27). -/
def smart_async_wrapper_name (op : Operation) : String :=
  pyReplaceAsyncEmpty op.name

/-- The call behavior of the smart wrapper produced by smart_async_wrapper:
inAsyncCtx is the result of the context probe detect_async_context (a
non-raising check for a running scheduler on the calling thread; the probe
itself lives in syft_hub/utils/async_utils.py, outside the provided sources,
and is modelled from the spec as an arbitrary boolean input). If a scheduler
is running, the unstarted coroutine async_method(self, *args) is returned;
otherwise it is executed to completion via run_async_in_thread and the
resolved outcome is returned directly. -/
def smart_async_wrapper_call (op : Operation) (inAsyncCtx : Bool)
    (self : ServiceInstance) (args : List ServiceInstance) : CallResult :=
  if inAsyncCtx then
    CallResult.coroutine (Coroutine.mk op (self :: args))
  else
    CallResult.value (run_async_in_thread (Coroutine.mk op (self :: args)))

/-- The needle occurs contiguously inside the haystack. -/
def containsSubstr (needle hay : String) : Prop :=
  ∃ pre post : String, hay = pre ++ needle ++ post

/-- Definition following the words of the spec, for comparison with the
source-derived smart_async_wrapper_name: strip one trailing "_async" suffix
if present, leave the name unchanged otherwise. -/
def stripAsyncSuffix (name : String) : String :=
  if name.data.reverse.take 6 = asyncPat.reverse then
    String.mk (name.data.take (name.data.length - 6))
  else
    name

/-- A computation over the attribute store of one service instance: returns
a result together with the (possibly updated) instance. Used to state that
the guard precondition checks only read the instance and never write it. -/
def AttrM (α : Type) : Type := ServiceInstance → α × ServiceInstance

/-- Reading an attribute of the instance leaves the store unchanged. -/
def AttrM.read {α : Type} (f : ServiceInstance → α) : AttrM α :=
  fun σ => (f σ, σ)

/-- Returning a pure value. -/
def AttrM.pure {α : Type} (a : α) : AttrM α :=
  fun σ => (a, σ)

/-- Sequencing two attribute-store computations. -/
def AttrM.bind {α β : Type} (m : AttrM α) (f : α → AttrM β) : AttrM β :=
  fun σ =>
    let p := m σ
    f p.1 p.2

/-- The precondition check of the ensure_syftbox_running wrapper as an
attribute-store computation on the first-argument instance: reads the
syft_client attribute (the hasattr plus isinstance test), reads the class
name for the error message when the test fails, and evaluates the readiness
predicate of the valid client; yields the exception to raise, if any. -/
def ensure_syftbox_checkM : AttrM (Option Exc) :=
  AttrM.bind (AttrM.read ServiceInstance.syft_client) fun sc =>
    match sc with
    | SyftClientAttr.missing =>
      AttrM.bind (AttrM.read ServiceInstance.className) fun cn =>
        AttrM.pure (some (Exc.attributeError (lacksClientMessage cn)))
    | SyftClientAttr.wrongType =>
      AttrM.bind (AttrM.read ServiceInstance.className) fun cn =>
        AttrM.pure (some (Exc.attributeError (lacksClientMessage cn)))
    | SyftClientAttr.client ready =>
      if !ready then
        AttrM.pure (some (Exc.syftBoxNotRunningError notRunningMessage))
      else
        AttrM.pure none

/-- The precondition check of the require_account wrappers as an
attribute-store computation: one getattr read of the account-configured
flag; yields the exception to raise, if any. -/
def require_account_checkM : AttrM (Option Exc) :=
  AttrM.bind (AttrM.read getattr_account_configured) fun v =>
    if !v.truthy then
      AttrM.pure (some (Exc.authenticationError accountSetupMessage))
    else
      AttrM.pure none

/-- Helper: calling the require_account result checks the flag and either
raises or invokes the wrapped operation once, in both wrapper shapes. -/
theorem require_account_call_eq (op : Operation) (self : ServiceInstance)
    (args : List ServiceInstance) :
    (require_account op).call self args
      = if (getattr_account_configured self).truthy then (op.run (self :: args), 1)
        else (Except.error (Exc.authenticationError accountSetupMessage), 0) := by
  cases hA : op.isAsync <;>
    cases hT : (getattr_account_configured self).truthy <;>
      simp [require_account, hA, WrappedFun.call, require_account_async_wrapper,
        require_account_sync_wrapper, hT]

/-- A concrete service instance with a ready client and no account
attribute, used to instantiate the theorems. -/
def instReadyNoAcct : ServiceInstance :=
  ServiceInstance.mk "ChatService" (SyftClientAttr.client true) none

/-- A concrete service instance whose readiness predicate is false. -/
def instNotReady : ServiceInstance :=
  ServiceInstance.mk "ChatService" (SyftClientAttr.client false) (some (PyValue.vBool true))

/-- A concrete service instance lacking the syft_client attribute. -/
def instNoClient : ServiceInstance :=
  ServiceInstance.mk "BrokenService" SyftClientAttr.missing (some (PyValue.vBool true))

/-- A concrete service instance with a ready client and a configured
account. -/
def instConfigured : ServiceInstance :=
  ServiceInstance.mk "ChatService" (SyftClientAttr.client true) (some (PyValue.vBool true))

/-- A concrete asynchronous operation used to instantiate the theorems: it
returns the number of positional arguments it received. -/
def sendMessage : Operation :=
  Operation.mk "send_message_async" (some "Sends a message.") true
    (fun args => Except.ok (PyValue.vInt (Int.ofNat args.length)))

/-- C1: a call to the smart wrapper made while an asynchronous scheduler is
running on the calling thread returns the wrapped operation's coroutine
unstarted, and awaiting that coroutine yields the same outcome as the
operation itself; a call made with no scheduler running executes the
operation to completion through the thread-hosted runner and returns the
resolved outcome directly, not an awaitable. -/
theorem smart_wrapper_adaptive_dispatch (op : Operation) (self : ServiceInstance)
    (args : List ServiceInstance) :
    (smart_async_wrapper_call op true self args
        = CallResult.coroutine (Coroutine.mk op (self :: args))
      ∧ (Coroutine.mk op (self :: args)).awaited = op.run (self :: args))
    ∧ smart_async_wrapper_call op false self args
        = CallResult.value (op.run (self :: args)) :=
  ⟨⟨rfl, rfl⟩, rfl⟩

/-- C2 counterexample: for an operation named fetch_async_data the smart
wrapper stores the name fetch_data, while stripping an _async suffix (the
name has none) would leave fetch_async_data unchanged; the name.replace
call of the source removes every occurrence of _async, not only a trailing
suffix. -/
theorem smart_wrapper_name_not_suffix_strip :
    smart_async_wrapper_name
        (Operation.mk "fetch_async_data" (some "Fetches X") true
          (fun _ => Except.ok PyValue.vNone))
      = "fetch_data"
    ∧ stripAsyncSuffix "fetch_async_data" = "fetch_async_data"
    ∧ ("fetch_data" : String) ≠ "fetch_async_data" :=
  ⟨by decide, by decide, by decide⟩

/-- C2 amended: the blocking adaptation exposes the original name with
_sync appended and a documentation string embedding the original one; the
adaptive dispatch exposes the original name with every occurrence of _async
removed (in particular a trailing _async is stripped, so fetch_async
becomes fetch) and a documentation string embedding the original one. -/
theorem wrapper_metadata (op : Operation) :
    (make_sync_wrapper op).name = op.name ++ "_sync"
    ∧ containsSubstr (op.doc.getD "") ((make_sync_wrapper op).doc.getD "")
    ∧ smart_async_wrapper_name op = pyReplaceAsyncEmpty op.name
    ∧ containsSubstr (op.doc.getD "") (smart_async_wrapper_doc op)
    ∧ pyReplaceAsyncEmpty "fetch_async" = "fetch" := by
  refine ⟨rfl, ⟨"Synchronous wrapper for " ++ op.name ++ ".\n\n", "", ?_⟩, rfl,
    ⟨"Smart wrapper for " ++ op.name ++ " that adapts to execution context.\n    \n    In async contexts: returns awaitable coroutine\n    In sync contexts: returns the actual result\n    \n    ",
      "\n    ", rfl⟩, by decide⟩
  simp [make_sync_wrapper, make_sync_wrapper_doc]

/-- C3: for any operation, when the account-configured flag of the instance
is absent or falsy, the require_account wrapper — in the shape returned by
the decorator and in both explicit wrapper shapes — raises the
AuthenticationError carrying the remediation hint, and the wrapped
operation is never invoked (invocation count 0, so in the asynchronous
branch the inner coroutine is never even constructed and nothing is
scheduled). -/
theorem require_account_blocks_unconfigured (op : Operation) (self : ServiceInstance)
    (args : List ServiceInstance)
    (h : (getattr_account_configured self).truthy = false) :
    (require_account op).call self args
      = (Except.error (Exc.authenticationError accountSetupMessage), 0)
    ∧ require_account_async_wrapper op self args
      = (Except.error (Exc.authenticationError accountSetupMessage), 0)
    ∧ require_account_sync_wrapper op self args
      = (Except.error (Exc.authenticationError accountSetupMessage), 0) := by
  refine ⟨?_, ?_, ?_⟩
  · rw [require_account_call_eq, h]; simp
  · simp [require_account_async_wrapper, h]
  · simp [require_account_sync_wrapper, h]

/-- C3 witness: the concrete unconfigured instance is rejected. -/
theorem require_account_blocks_unconfigured_witness :
    (getattr_account_configured instReadyNoAcct).truthy = false
    ∧ (require_account sendMessage).call instReadyNoAcct []
        = (Except.error (Exc.authenticationError accountSetupMessage), 0) :=
  ⟨rfl, (require_account_blocks_unconfigured sendMessage instReadyNoAcct [] rfl).1⟩

/-- C4: when the readiness predicate of a valid client reports false, the
ensure_syftbox_running wrapper raises the SyftBoxNotRunningError with its
descriptive message and the wrapped operation is never invoked. -/
theorem ensure_blocks_not_running (op : Operation) (inst : ServiceInstance)
    (rest : List ServiceInstance)
    (h : inst.syft_client = SyftClientAttr.client false) :
    ensure_syftbox_running op (inst :: rest)
      = (Except.error (Exc.syftBoxNotRunningError notRunningMessage), 0) := by
  simp [ensure_syftbox_running, h]

/-- C4 witness: the concrete not-ready instance is rejected. -/
theorem ensure_blocks_not_running_witness :
    instNotReady.syft_client = SyftClientAttr.client false
    ∧ ensure_syftbox_running sendMessage [instNotReady]
        = (Except.error (Exc.syftBoxNotRunningError notRunningMessage), 0) :=
  ⟨rfl, ensure_blocks_not_running sendMessage instNotReady [] rfl⟩

/-- C5: when the readiness predicate of a valid client reports true, the
ensure_syftbox_running wrapper invokes the wrapped operation exactly once
with the original argument list and propagates its outcome — returned value
or raised error — unchanged. -/
theorem ensure_invokes_when_ready (op : Operation) (inst : ServiceInstance)
    (rest : List ServiceInstance)
    (h : inst.syft_client = SyftClientAttr.client true) :
    ensure_syftbox_running op (inst :: rest) = (op.run (inst :: rest), 1) := by
  simp [ensure_syftbox_running, h]

/-- C5 witness: the concrete ready instance lets the concrete operation run
once on the original arguments. -/
theorem ensure_invokes_when_ready_witness :
    instReadyNoAcct.syft_client = SyftClientAttr.client true
    ∧ ensure_syftbox_running sendMessage [instReadyNoAcct]
        = (sendMessage.run [instReadyNoAcct], 1) :=
  ⟨rfl, ensure_invokes_when_ready sendMessage instReadyNoAcct [] rfl⟩

/-- C6: the require_account decorator dispatches on whether the wrapped
function is a coroutine function — the decorated result is asynchronous
exactly when the original is, so the calling convention is preserved — and
on an instance whose account-configured flag is truthy the wrapped call
invokes the operation once with the original arguments and returns its
outcome (value or raised error) unchanged. -/
theorem require_account_dispatch_transparent (op : Operation) (self : ServiceInstance)
    (args : List ServiceInstance)
    (h : (getattr_account_configured self).truthy = true) :
    (require_account op).isAsync = op.isAsync
    ∧ (require_account op).call self args = (op.run (self :: args), 1) := by
  constructor
  · cases hA : op.isAsync <;> simp [require_account, hA, WrappedFun.isAsync]
  · rw [require_account_call_eq, h]; simp

/-- C6 witness: on the concrete configured instance the wrapped concrete
operation keeps its calling convention and behaves like the original. -/
theorem require_account_dispatch_transparent_witness :
    (getattr_account_configured instConfigured).truthy = true
    ∧ (require_account sendMessage).isAsync = sendMessage.isAsync
    ∧ (require_account sendMessage).call instConfigured []
        = (sendMessage.run [instConfigured], 1) :=
  ⟨rfl, (require_account_dispatch_transparent sendMessage instConfigured [] rfl).1,
    (require_account_dispatch_transparent sendMessage instConfigured [] rfl).2⟩

/-- C7: when the first-argument instance lacks a syft_client attribute or
carries one that is not an instance of the expected client type, the
ensure_syftbox_running wrapper raises an AttributeError whose message names
the offending instance's class, and the wrapped operation is never
invoked. -/
theorem ensure_blocks_invalid_client (op : Operation) (inst : ServiceInstance)
    (rest : List ServiceInstance)
    (h : inst.syft_client = SyftClientAttr.missing
      ∨ inst.syft_client = SyftClientAttr.wrongType) :
    ensure_syftbox_running op (inst :: rest)
      = (Except.error (Exc.attributeError (lacksClientMessage inst.className)), 0)
    ∧ containsSubstr inst.className (lacksClientMessage inst.className) := by
  constructor
  · cases h with
    | inl h => simp [ensure_syftbox_running, h]
    | inr h => simp [ensure_syftbox_running, h]
  · exact ⟨"Service instance ", " lacks a valid \x27syft_client\x27 attribute.", rfl⟩

/-- C7 witness: the concrete instance without the attribute is rejected
with the message naming its class. -/
theorem ensure_blocks_invalid_client_witness :
    (instNoClient.syft_client = SyftClientAttr.missing
      ∨ instNoClient.syft_client = SyftClientAttr.wrongType)
    ∧ ensure_syftbox_running sendMessage [instNoClient]
        = (Except.error (Exc.attributeError (lacksClientMessage "BrokenService")), 0) :=
  ⟨Or.inl rfl,
    (ensure_blocks_invalid_client sendMessage instNoClient [] (Or.inl rfl)).1⟩

/-- C8: for every wrapped operation, calling the ensure_syftbox_running
wrapper with no positional arguments at all raises a TypeError whose
message says the operation must be called as a method, and the wrapped
operation is never invoked. -/
theorem ensure_requires_method_call (op : Operation) :
    ensure_syftbox_running op []
      = (Except.error (Exc.typeError (mustBeMethodMessage op.name)), 0) :=
  rfl

/-- C9: the precondition checks of both guards only read the instance:
run on any instance state they return every field — in particular the
syft_client reference and the account-configured flag — exactly as it was,
whether they pass or fail, and each wrapper behaves as that pure check
followed by either raising the produced exception or invoking the wrapped
operation. -/
theorem guard_checks_read_only (op : Operation) (σ : ServiceInstance)
    (rest : List ServiceInstance) :
    (ensure_syftbox_checkM σ).2 = σ
    ∧ (require_account_checkM σ).2 = σ
    ∧ ensure_syftbox_running op (σ :: rest)
        = (match (ensure_syftbox_checkM σ).1 with
           | some e => (Except.error e, 0)
           | none => (op.run (σ :: rest), 1))
    ∧ (require_account op).call σ rest
        = (match (require_account_checkM σ).1 with
           | some e => (Except.error e, 0)
           | none => (op.run (σ :: rest), 1)) := by
  obtain ⟨cn, sc, ac⟩ := σ
  refine ⟨?_, ?_, ?_, ?_⟩
  · cases sc with
    | missing => rfl
    | wrongType => rfl
    | client ready => cases ready <;> rfl
  · cases hT : (getattr_account_configured (ServiceInstance.mk cn sc ac)).truthy <;>
      simp [require_account_checkM, AttrM.bind, AttrM.read, AttrM.pure, hT]
  · cases sc with
    | missing => rfl
    | wrongType => rfl
    | client ready => cases ready <;> rfl
  · rw [require_account_call_eq]
    cases hT : (getattr_account_configured (ServiceInstance.mk cn sc ac)).truthy <;>
      simp [require_account_checkM, AttrM.bind, AttrM.read, AttrM.pure, hT]

/-- C10: a present account-configured attribute guards by Python
truthiness: any falsy value (None, False, 0, the empty string) makes the
require_account wrapper behave exactly as if the attribute were absent —
the AuthenticationError is raised and the operation is never invoked —
while any truthy value lets the wrapped operation run once with the
original arguments. -/
theorem require_account_truthiness (op : Operation) (v : PyValue) (cn : String)
    (sc : SyftClientAttr) (args : List ServiceInstance) :
    (require_account op).call (ServiceInstance.mk cn sc (some v)) args
      = (if v.truthy then (op.run (ServiceInstance.mk cn sc (some v) :: args), 1)
         else (require_account op).call (ServiceInstance.mk cn sc none) args)
    ∧ (require_account op).call (ServiceInstance.mk cn sc none) args
      = (Except.error (Exc.authenticationError accountSetupMessage), 0) := by
  have hnone : (require_account op).call (ServiceInstance.mk cn sc none) args
      = (Except.error (Exc.authenticationError accountSetupMessage), 0) := by
    rw [require_account_call_eq]
    simp [getattr_account_configured, PyValue.truthy]
  refine ⟨?_, hnone⟩
  rw [require_account_call_eq]
  cases hv : v.truthy <;> simp [getattr_account_configured, hv, hnone]
